import Mathlib

/-!
# Verification of the tool-calling orchestration examples

Shallow embedding of the recurring core of the repository
(`typescript-examples/adjustable-settings/src/index.ts`, the video-assistant
example, and the rephrase-user-query example): the tool-calling orchestration
loop, the structured-output validation/clamping path of `update_app_settings`,
and the append-only conversation session.

Conventions of the embedding:
* TypeScript `number` is modelled as `ℚ` for ordinary values; JavaScript `NaN`
  (which arises from `Math.min`/`Math.max` applied to `undefined`) is modelled
  explicitly by `JSNum.nan`.
* The external model client is modelled as an oracle `Nat → Response`: the
  n-th `chat.sendMessage` call returns `oracle n`.  Everything the program
  sends to the client (user text, tool-result payloads) only influences the
  next response through this oracle, which quantifies over all possible model
  behaviours.
* Console printing is not modelled; outcomes carry the data that the source
  prints or throws.
-/

namespace NaiExamples

/-- JSON-like values, the loosely-typed payloads exchanged with the model
(function-call arguments, tool results). -/
inductive JValue where
  | jnull
  | jbool (b : Bool)
  | jnum (q : ℚ)
  | jstr (s : String)
  | jarr (elems : List JValue)
  | jobj (fields : List (String × JValue))

/-- A JavaScript number as it flows through the clamping code: either an
ordinary (rational-modelled) value or `NaN`. -/
inductive JSNum where
  | nan
  | num (q : ℚ)
deriving DecidableEq

/-- JavaScript `Math.min` on two values: `NaN` if either operand is `NaN`
(this is how `Math.min(2.0, undefined)` behaves, since `undefined` coerces to
`NaN`). -/
def jsMin : JSNum → JSNum → JSNum
  | JSNum.num x, JSNum.num y => JSNum.num (min x y)
  | _, _ => JSNum.nan

/-- JavaScript `Math.max`, `NaN`-propagating like `jsMin`. -/
def jsMax : JSNum → JSNum → JSNum
  | JSNum.num x, JSNum.num y => JSNum.num (max x y)
  | _, _ => JSNum.nan

/-- Coercion of a possibly-absent (`undefined`) numeric field to a JavaScript
number: an absent field becomes `NaN` when it reaches `Math.min`/`Math.max`. -/
def toNum : Option ℚ → JSNum
  | none => JSNum.nan
  | some q => JSNum.num q

/-- The `AppSettings` interface of `adjustable-settings/src/index.ts`. -/
structure AppSettings where
  darkMode : Bool
  fontSizeFactor : ℚ
  notificationsEnabled : Bool
  notificationVolume : ℚ
  reduceMotion : Bool
  autoPlayVideos : Bool
  highContrast : Bool
  textToSpeechRate : ℚ
deriving DecidableEq

/-- The constant settings object returned by the tool
`get_current_app_settings` in the source (it simulates reading storage). -/
def get_current_app_settings : AppSettings :=
  { darkMode := false
    fontSizeFactor := 1
    notificationsEnabled := true
    notificationVolume := 7/10
    reduceMotion := false
    autoPlayVideos := true
    highContrast := false
    textToSpeechRate := 1 }

/-- The result of `JSON.parse(responseText) as AppSettings`: the cast performs
no checking, so every field may be absent (`undefined`).  Fields of the wrong
primitive type are not modelled; the request's `responseSchema` fixes the
types, and no claim depends on them. -/
structure ProposedSettings where
  darkMode : Option Bool
  fontSizeFactor : Option ℚ
  notificationsEnabled : Option Bool
  notificationVolume : Option ℚ
  reduceMotion : Option Bool
  autoPlayVideos : Option Bool
  highContrast : Option Bool
  textToSpeechRate : Option ℚ
deriving DecidableEq

/-- The value `update_app_settings` hands back to the loop: boolean fields as
they came out of the parse, numeric fields after the `Math.max`/`Math.min`
clamping (hence possibly `NaN`). -/
structure ValidatedSettings where
  darkMode : Option Bool
  fontSizeFactor : JSNum
  notificationsEnabled : Option Bool
  notificationVolume : JSNum
  reduceMotion : Option Bool
  autoPlayVideos : Option Bool
  highContrast : Option Bool
  textToSpeechRate : JSNum
deriving DecidableEq

/-- A fully-typed `AppSettings` value viewed as a tool result (used when the
catch-branch returns `currentSettings` unchanged). -/
def ofAppSettings (s : AppSettings) : ValidatedSettings :=
  { darkMode := some s.darkMode
    fontSizeFactor := JSNum.num s.fontSizeFactor
    notificationsEnabled := some s.notificationsEnabled
    notificationVolume := JSNum.num s.notificationVolume
    reduceMotion := some s.reduceMotion
    autoPlayVideos := some s.autoPlayVideos
    highContrast := some s.highContrast
    textToSpeechRate := JSNum.num s.textToSpeechRate }

/-- The two ways the try-block of `update_app_settings` can fail: the
transactional `model.generateContent` call itself fails, or `JSON.parse`
throws on the returned text.  Both land in the same catch. -/
inductive CallError where
  | transport
  | parseFailure
deriving DecidableEq

/-- The validation path of the tool `update_app_settings`
(`adjustable-settings/src/index.ts`, lines 182-202).  The transactional model
call plus parse is abstracted as `attempt`; on success the source clamps
`fontSizeFactor` into [0.8, 2.0], `notificationVolume` into [0.0, 1.0] and
`textToSpeechRate` into [0.5, 2.0] via `Math.max(lo, Math.min(hi, v))` and
returns the payload; on any error it returns `currentSettings` unchanged. -/
def update_app_settings (attempt : Except CallError ProposedSettings)
    (currentSettings : AppSettings) : ValidatedSettings :=
  match attempt with
  | Except.error _ => ofAppSettings currentSettings
  | Except.ok proposedSettings =>
    { darkMode := proposedSettings.darkMode
      fontSizeFactor :=
        jsMax (JSNum.num (8/10)) (jsMin (JSNum.num 2) (toNum proposedSettings.fontSizeFactor))
      notificationsEnabled := proposedSettings.notificationsEnabled
      notificationVolume :=
        jsMax (JSNum.num 0) (jsMin (JSNum.num 1) (toNum proposedSettings.notificationVolume))
      reduceMotion := proposedSettings.reduceMotion
      autoPlayVideos := proposedSettings.autoPlayVideos
      highContrast := proposedSettings.highContrast
      textToSpeechRate :=
        jsMax (JSNum.num (1/2)) (jsMin (JSNum.num 2) (toNum proposedSettings.textToSpeechRate)) }

/-- Clamping as the spec words it: `clamp(v) = min if v < min, max if v > max,
else v` (spec section 4.4 and section 8).  Stated separately from the source's
`Math.max`/`Math.min` composition so the two can be compared. -/
def clampSpec (lo hi v : ℚ) : ℚ :=
  if v < lo then lo else if hi < v then hi else v

/-- The source's clamp agrees with the spec's wording on ordinary numbers. -/
lemma jsClamp_eq_clampSpec (lo hi v : ℚ) (hlh : lo ≤ hi) :
    jsMax (JSNum.num lo) (jsMin (JSNum.num hi) (JSNum.num v)) =
      JSNum.num (clampSpec lo hi v) := by
  simp only [jsMin, jsMax, clampSpec]
  split_ifs with h1 h2
  · have hv : v ≤ hi := le_trans (le_of_lt h1) hlh
    rw [min_eq_right hv, max_eq_left (le_of_lt h1)]
  · rw [min_eq_left (le_of_lt h2), max_eq_right hlh]
  · rw [min_eq_right (not_lt.mp h2), max_eq_right (not_lt.mp h1)]

/-- **C2.** For every successfully parsed settings payload, each numeric field
declared with a range that is present as a number is clamped exactly as the
spec states (`min` if below, `max` if above, unchanged otherwise) in the value
`update_app_settings` hands onward: fontSizeFactor into [0.8, 2.0],
notificationVolume into [0.0, 1.0], textToSpeechRate into [0.5, 2.0]. -/
theorem update_app_settings_clamps_ranges
    (p : ProposedSettings) (cs : AppSettings) (qf qv qr : ℚ)
    (hf : p.fontSizeFactor = some qf)
    (hv : p.notificationVolume = some qv)
    (hr : p.textToSpeechRate = some qr) :
    (update_app_settings (Except.ok p) cs).fontSizeFactor =
        JSNum.num (clampSpec (8/10) 2 qf) ∧
    (update_app_settings (Except.ok p) cs).notificationVolume =
        JSNum.num (clampSpec 0 1 qv) ∧
    (update_app_settings (Except.ok p) cs).textToSpeechRate =
        JSNum.num (clampSpec (1/2) 2 qr) := by
  refine ⟨?_, ?_, ?_⟩
  · show jsMax (JSNum.num (8/10)) (jsMin (JSNum.num 2) (toNum p.fontSizeFactor)) = _
    rw [hf]
    exact jsClamp_eq_clampSpec (8/10) 2 qf (by norm_num)
  · show jsMax (JSNum.num 0) (jsMin (JSNum.num 1) (toNum p.notificationVolume)) = _
    rw [hv]
    exact jsClamp_eq_clampSpec 0 1 qv (by norm_num)
  · show jsMax (JSNum.num (1/2)) (jsMin (JSNum.num 2) (toNum p.textToSpeechRate)) = _
    rw [hr]
    exact jsClamp_eq_clampSpec (1/2) 2 qr (by norm_num)

/-- A concrete parsed payload whose numeric fields are out of range on both
sides: fontSizeFactor 5.0 (above), notificationVolume -1 (below),
textToSpeechRate 1.0 (inside). -/
def outOfRangePayload : ProposedSettings :=
  { darkMode := some true
    fontSizeFactor := some 5
    notificationsEnabled := some true
    notificationVolume := some (-1)
    reduceMotion := some false
    autoPlayVideos := some true
    highContrast := some false
    textToSpeechRate := some 1 }

/-- Witness for C2 at the spec's own example inputs: 5.0 clamps to 2.0 in
[0.8, 2.0], -1 clamps to 0.0 in [0.0, 1.0], 1.0 stays 1.0 in [0.5, 2.0]. -/
theorem update_app_settings_clamps_ranges_witness :
    (update_app_settings (Except.ok outOfRangePayload) get_current_app_settings).fontSizeFactor =
        JSNum.num 2 ∧
    (update_app_settings (Except.ok outOfRangePayload) get_current_app_settings).notificationVolume =
        JSNum.num 0 ∧
    (update_app_settings (Except.ok outOfRangePayload) get_current_app_settings).textToSpeechRate =
        JSNum.num 1 := by
  have h := update_app_settings_clamps_ranges outOfRangePayload get_current_app_settings
    5 (-1) 1 rfl rfl rfl
  refine ⟨?_, ?_, ?_⟩
  · rw [h.1]; norm_num [clampSpec]
  · rw [h.2.1]; norm_num [clampSpec]
  · rw [h.2.2]; norm_num [clampSpec]

/-- Result type of the video-assistant tool `find_relevant_timestamps`
(`part_002`, lines 140-190): a list of MM:SS timestamp strings. -/
structure TimestampsResult where
  relevantTimestamps : List String
deriving DecidableEq

/-- The error-recovery path of `find_relevant_timestamps` (`part_002`, lines
176-189): the transactional call plus parse is abstracted as `attempt`; on
success the parsed `timestamps` field (or `[]` when absent, the source's
`parsed.timestamps || []`) is returned; on any error the constant safe
fallback `{ relevantTimestamps: [] }` is returned. -/
def find_relevant_timestamps (attempt : Except CallError (Option (List String))) :
    TimestampsResult :=
  match attempt with
  | Except.error _ => { relevantTimestamps := [] }
  | Except.ok parsed => { relevantTimestamps := parsed.getD [] }

/-- **C5.** Every failure of the single-shot model call and every parse
failure is absorbed at the call site: `update_app_settings` returns the
caller-supplied fallback (the prior settings object) unchanged, and
`find_relevant_timestamps` returns its safe empty fallback; in both cases a
value is returned to the loop rather than an exception propagated. -/
theorem validate_failure_returns_fallback :
    (∀ (err : CallError) (cs : AppSettings),
      update_app_settings (Except.error err) cs = ofAppSettings cs) ∧
    (∀ err : CallError,
      find_relevant_timestamps (Except.error err) = { relevantTimestamps := [] }) := by
  exact ⟨fun _ _ => rfl, fun _ => rfl⟩

/-- A payload that parses successfully but is missing the required numeric
field `fontSizeFactor` (for example the text `{"darkMode": true, ...}` with
that key omitted). -/
def missingFieldPayload : ProposedSettings :=
  { darkMode := some true
    fontSizeFactor := none
    notificationsEnabled := some true
    notificationVolume := some (7/10)
    reduceMotion := some false
    autoPlayVideos := some true
    highContrast := some false
    textToSpeechRate := some 1 }

/-- **C6, counterexample.** A successfully parsed payload missing the
required field `fontSizeFactor` is not treated as malformed: the code does
not return the fallback settings unchanged — it returns the partial payload,
whose `fontSizeFactor` has become `NaN` under `Math.max(0.8, Math.min(2.0,
undefined))`. -/
theorem update_app_settings_missing_required_not_fallback :
    update_app_settings (Except.ok missingFieldPayload) get_current_app_settings ≠
        ofAppSettings get_current_app_settings ∧
    (update_app_settings (Except.ok missingFieldPayload) get_current_app_settings).fontSizeFactor =
        JSNum.nan := by
  constructor
  · intro h
    have hf := congrArg ValidatedSettings.fontSizeFactor h
    simp only [update_app_settings, ofAppSettings, missingFieldPayload, toNum, jsMin, jsMax] at hf
    exact JSNum.noConfusion hf
  · rfl

/-- **C6, amended.** On a successful parse the whole payload is never treated
as malformed for a missing required field: `update_app_settings` returns the
parsed partial payload with its numeric clamps applied, an absent numeric
field becoming `NaN` and absent boolean fields staying absent; the fallback
is reserved for parse/call failures (required-field enforcement is delegated
to the `responseSchema` of the request, not checked locally). -/
theorem update_app_settings_missing_required_amended
    (p : ProposedSettings) (cs : AppSettings) :
    (update_app_settings (Except.ok p) cs).darkMode = p.darkMode ∧
    (p.fontSizeFactor = none →
      (update_app_settings (Except.ok p) cs).fontSizeFactor = JSNum.nan) ∧
    (p.notificationVolume = none →
      (update_app_settings (Except.ok p) cs).notificationVolume = JSNum.nan) ∧
    (p.textToSpeechRate = none →
      (update_app_settings (Except.ok p) cs).textToSpeechRate = JSNum.nan) := by
  refine ⟨rfl, fun hf => ?_, fun hv => ?_, fun hr => ?_⟩
  · show jsMax (JSNum.num (8/10)) (jsMin (JSNum.num 2) (toNum p.fontSizeFactor)) = _
    rw [hf]; rfl
  · show jsMax (JSNum.num 0) (jsMin (JSNum.num 1) (toNum p.notificationVolume)) = _
    rw [hv]; rfl
  · show jsMax (JSNum.num (1/2)) (jsMin (JSNum.num 2) (toNum p.textToSpeechRate)) = _
    rw [hr]; rfl

/-- A payload missing every field that can be absent (the parse of `{}`). -/
def emptyPayload : ProposedSettings :=
  { darkMode := none
    fontSizeFactor := none
    notificationsEnabled := none
    notificationVolume := none
    reduceMotion := none
    autoPlayVideos := none
    highContrast := none
    textToSpeechRate := none }

/-- Witness for the amended C6 at the parse of the empty object: every absent
numeric field comes out as `NaN` and `darkMode` stays absent. -/
theorem update_app_settings_missing_required_amended_witness :
    (update_app_settings (Except.ok emptyPayload) get_current_app_settings).darkMode = none ∧
    (update_app_settings (Except.ok emptyPayload) get_current_app_settings).fontSizeFactor =
        JSNum.nan ∧
    (update_app_settings (Except.ok emptyPayload) get_current_app_settings).notificationVolume =
        JSNum.nan ∧
    (update_app_settings (Except.ok emptyPayload) get_current_app_settings).textToSpeechRate =
        JSNum.nan := by
  have h := update_app_settings_missing_required_amended emptyPayload get_current_app_settings
  exact ⟨h.1, h.2.1 rfl, h.2.2.1 rfl, h.2.2.2 rfl⟩

/-! ## The orchestrator loops

`adjustable-settings/src/index.ts` (main, lines 283-349) and the
video-assistant example (`part_002`, main, lines 321-392) share one loop
shape: send, inspect the response for function calls, dispatch the first one,
send the tool result back, bounded by `MAX_LOOPS = 5`. -/

/-- One part of a model response candidate: either text or a function call
(`part.functionCall` with a name and loosely-typed arguments). -/
inductive Part where
  | text (s : String)
  | functionCall (name : String) (args : JValue)

/-- A model response (the parts of `response.candidates[0].content`). -/
structure Response where
  parts : List Part

/-- Selector for a part's function call, if any (`part.functionCall`). -/
def fcSel : Part → Option (String × JValue)
  | Part.functionCall name args => some (name, args)
  | Part.text _ => none

/-- Selector for a part's text, if any. -/
def textSel : Part → Option String
  | Part.text s => some s
  | Part.functionCall _ _ => none

/-- The function calls of a response, in order: the source's
`parts.filter(part => !!part.functionCall).map(part => part.functionCall)`. -/
def Response.functionCalls (r : Response) : List (String × JValue) :=
  r.parts.filterMap fcSel

/-- The text of a response, `response.text()`: the concatenation of the text
parts. -/
def Response.textOf (r : Response) : String :=
  String.join (r.parts.filterMap textSel)

/-- Observable events of a run, in order.  A `dispatch` records the tool
name, the arguments carried by the model's request (`fnCall.args`), and the
arguments actually handed to the bound handler (`none` for a handler invoked
without arguments).  A `send` is one `chat.sendMessage` round trip. -/
inductive Event where
  | dispatch (name : String) (requestedArgs : JValue) (handlerArgs : Option JValue)
  | send

/-- How a run of the loop ends.  All four are caught, terminal conditions in
the source: `finalResponse` is the no-function-call break printing the final
text; `unknownTool` is the warn-and-break on an unregistered name;
`maxLoops` is the iteration-bound break, carrying the text of the last
response; `thrownError` is a thrown `Error` caught by the enclosing
try/catch of `main`. -/
inductive Outcome where
  | finalResponse (text : String)
  | unknownTool (name : String)
  | maxLoops (lastText : String)
  | thrownError (msg : String)

/-- The iteration bound, `const MAX_LOOPS = 5`. -/
def MAX_LOOPS : Nat := 5

/-- The message of the `Error` thrown when `update_app_settings` is requested
before `get_current_app_settings` has stored the current settings. -/
def missingSettingsMsg : String :=
  "Cannot call update_app_settings without current settings. get_current_app_settings must be called first."

/-- Serialization of an `AppSettings` value into the loosely-typed argument
object handed to the `update_app_settings` handler. -/
def encodeAppSettings (s : AppSettings) : JValue :=
  JValue.jobj
    [("darkMode", JValue.jbool s.darkMode),
     ("fontSizeFactor", JValue.jnum s.fontSizeFactor),
     ("notificationsEnabled", JValue.jbool s.notificationsEnabled),
     ("notificationVolume", JValue.jnum s.notificationVolume),
     ("reduceMotion", JValue.jbool s.reduceMotion),
     ("autoPlayVideos", JValue.jbool s.autoPlayVideos),
     ("highContrast", JValue.jbool s.highContrast),
     ("textToSpeechRate", JValue.jnum s.textToSpeechRate)]

/-- The arguments the adjustable-settings loop builds for the
`update_app_settings` handler in place of the model-supplied ones
(index.ts lines 319-323): the stored settings and the original user query. -/
def updateToolArgs (storedSettings : AppSettings) (userQuery : String) : JValue :=
  JValue.jobj
    [("currentSettings", encodeAppSettings storedSettings),
     ("userRequest", JValue.jstr userQuery)]

namespace AdjSettings

/-- The function-calling handling loop of `adjustable-settings` `main`
(index.ts lines 287-343), one recursive layer per `while` iteration.

* `oracle i` is the response produced by the (i+1)-th `chat.sendMessage`;
  `respIdx` indexes the response currently held in `result`.
* `fuel` is `MAX_LOOPS - loopCount`, so the `while (loopCount < MAX_LOOPS)`
  test is `fuel > 0`; `loopCount` is incremented at the top of the body.
* `csd` is the `currentSettingsData` variable (`none` until
  `get_current_app_settings` stores its result).

It returns the outcome, the event trace of the loop body, and the list of
values taken by `loopCount` at the top of each executed iteration.  Handler
result payloads flow back to the model only through `sendMessage`, which the
oracle abstracts, so they do not appear in the state. -/
def loopAux (oracle : Nat → Response) (userQuery : String) :
    Nat → Nat → Nat → Option AppSettings → Outcome × List Event × List Nat
  | 0, _, respIdx, _ =>
    (Outcome.maxLoops (oracle respIdx).textOf, [], [])
  | fuel + 1, loopCount, respIdx, csd =>
    match (oracle respIdx).functionCalls with
    | [] =>
      (Outcome.finalResponse (oracle respIdx).textOf, [], [loopCount + 1])
    | (name, args) :: _ =>
      if name = "get_current_app_settings" then
        let ev := Event.dispatch name args none
        if loopCount + 1 ≥ MAX_LOOPS then
          (Outcome.maxLoops (oracle (respIdx + 1)).textOf, [ev, Event.send], [loopCount + 1])
        else
          let rest := loopAux oracle userQuery fuel (loopCount + 1) (respIdx + 1)
            (some get_current_app_settings)
          (rest.1, ev :: Event.send :: rest.2.1, (loopCount + 1) :: rest.2.2)
      else if name = "update_app_settings" then
        match csd with
        | none =>
          (Outcome.thrownError missingSettingsMsg, [], [loopCount + 1])
        | some storedSettings =>
          let ev := Event.dispatch name args (some (updateToolArgs storedSettings userQuery))
          if loopCount + 1 ≥ MAX_LOOPS then
            (Outcome.maxLoops (oracle (respIdx + 1)).textOf, [ev, Event.send], [loopCount + 1])
          else
            let rest := loopAux oracle userQuery fuel (loopCount + 1) (respIdx + 1) csd
            (rest.1, ev :: Event.send :: rest.2.1, (loopCount + 1) :: rest.2.2)
      else
        (Outcome.unknownTool name, [], [loopCount + 1])

/-- The try-block of `main` from the initial `chat.sendMessage(userQuery)`
through the loop: the initial round trip is the leading `send` event and
produces response 0 of the oracle. -/
def runMain (oracle : Nat → Response) (userQuery : String) :
    Outcome × List Event × List Nat :=
  let r := loopAux oracle userQuery MAX_LOOPS 0 0 none
  (r.1, Event.send :: r.2.1, r.2.2)

end AdjSettings

namespace VideoAssist

/-- The function-calling handling loop of the video-assistant `main`
(`part_002`, lines 325-383): same shape as the adjustable-settings loop, but
both registered tools (`find_relevant_timestamps`, `answer_user_query`)
receive the request's `args` verbatim and there is no stored-settings state. -/
def loopAux (oracle : Nat → Response) :
    Nat → Nat → Nat → Outcome × List Event × List Nat
  | 0, _, respIdx =>
    (Outcome.maxLoops (oracle respIdx).textOf, [], [])
  | fuel + 1, loopCount, respIdx =>
    match (oracle respIdx).functionCalls with
    | [] =>
      (Outcome.finalResponse (oracle respIdx).textOf, [], [loopCount + 1])
    | (name, args) :: _ =>
      if name = "find_relevant_timestamps" then
        let ev := Event.dispatch name args (some args)
        if loopCount + 1 ≥ MAX_LOOPS then
          (Outcome.maxLoops (oracle (respIdx + 1)).textOf, [ev, Event.send], [loopCount + 1])
        else
          let rest := loopAux oracle fuel (loopCount + 1) (respIdx + 1)
          (rest.1, ev :: Event.send :: rest.2.1, (loopCount + 1) :: rest.2.2)
      else if name = "answer_user_query" then
        let ev := Event.dispatch name args (some args)
        if loopCount + 1 ≥ MAX_LOOPS then
          (Outcome.maxLoops (oracle (respIdx + 1)).textOf, [ev, Event.send], [loopCount + 1])
        else
          let rest := loopAux oracle fuel (loopCount + 1) (respIdx + 1)
          (rest.1, ev :: Event.send :: rest.2.1, (loopCount + 1) :: rest.2.2)
      else
        (Outcome.unknownTool name, [], [loopCount + 1])

/-- The video-assistant `main` from the initial send through the loop. -/
def runMain (oracle : Nat → Response) : Outcome × List Event × List Nat :=
  let r := loopAux oracle MAX_LOOPS 0 0
  (r.1, Event.send :: r.2.1, r.2.2)

end VideoAssist

/-! ### Trace bookkeeping -/

/-- Whether an event is a `send` round trip. -/
def isSendEv : Event → Bool
  | Event.send => true
  | Event.dispatch _ _ _ => false

/-- Whether an event is a handler dispatch. -/
def isDispatchEv : Event → Bool
  | Event.dispatch _ _ _ => true
  | Event.send => false

/-- Number of `sendMessage` round trips in a trace. -/
def countSends (tr : List Event) : Nat := tr.countP isSendEv

/-- Number of handler dispatches in a trace. -/
def countDispatches (tr : List Event) : Nat := tr.countP isDispatchEv

/-- Drop a trace's prefix up to and including its n-th dispatch event. -/
def dropUntilDispatches : Nat → List Event → List Event
  | 0, tr => tr
  | _ + 1, [] => []
  | n + 1, e :: tr =>
    if isDispatchEv e then dropUntilDispatches n tr else dropUntilDispatches (n + 1) tr

/-- Number of round trips occurring strictly after the n-th dispatch. -/
def sendsAfterDispatches (n : Nat) (tr : List Event) : Nat :=
  countSends (dropUntilDispatches n tr)

/-- The dispatch events of a trace, as (name, requestedArgs, handlerArgs). -/
def dispatchTriples (tr : List Event) : List (String × JValue × Option JValue) :=
  tr.filterMap fun e =>
    match e with
    | Event.dispatch name reqArgs handlerArgs => some (name, reqArgs, handlerArgs)
    | Event.send => none

/-! ### Claims about the loops -/

/-- **C3.** A response with no tool-call ends the loop in that same round:
the outcome is the terminated state carrying exactly that response's text,
and the round contributes no event at all (no dispatch, no further round
trip).  The second conjunct specializes this to the whole interaction when
already the first response has no tool-call. -/
theorem loop_no_toolcall_terminates
    (oracle : Nat → Response) (userQuery : String)
    (fuel loopCount respIdx : Nat) (csd : Option AppSettings)
    (h : (oracle respIdx).functionCalls = []) :
    AdjSettings.loopAux oracle userQuery (fuel + 1) loopCount respIdx csd =
      (Outcome.finalResponse (oracle respIdx).textOf, [], [loopCount + 1]) ∧
    ((oracle 0).functionCalls = [] →
      AdjSettings.runMain oracle userQuery =
        (Outcome.finalResponse (oracle 0).textOf, [Event.send], [1])) := by
  constructor
  · simp only [AdjSettings.loopAux]
    rw [h]
  · intro h0
    show (let r := AdjSettings.loopAux oracle userQuery (4 + 1) 0 0 none
          (r.1, Event.send :: r.2.1, r.2.2)) = _
    simp only [AdjSettings.loopAux]
    rw [h0]

/-- An oracle whose first response is plain text. -/
def oracleTextOnly : Nat → Response :=
  fun _ => { parts := [Part.text "All done."] }

/-- Witness for C3: on a text-only first response the whole run is the
initial round trip followed by immediate termination with that text. -/
theorem loop_no_toolcall_terminates_witness :
    AdjSettings.runMain oracleTextOnly "Turn on dark mode." =
      (Outcome.finalResponse "All done.", [Event.send], [1]) :=
  (loop_no_toolcall_terminates oracleTextOnly "Turn on dark mode." 0 0 0 none rfl).2 rfl

/-- **C8.** A tool-call whose name matches neither registered tool is
terminal: the loop ends with the distinguished `unknownTool` outcome carrying
that name, the round contributes no event (so no handler is invoked and no
round trip follows), and the interaction is never retried. -/
theorem loop_unknown_tool_terminal
    (oracle : Nat → Response) (userQuery : String)
    (fuel loopCount respIdx : Nat) (csd : Option AppSettings)
    (n : String) (a : JValue) (rest : List (String × JValue))
    (hfc : (oracle respIdx).functionCalls = (n, a) :: rest)
    (h1 : n ≠ "get_current_app_settings")
    (h2 : n ≠ "update_app_settings") :
    AdjSettings.loopAux oracle userQuery (fuel + 1) loopCount respIdx csd =
      (Outcome.unknownTool n, [], [loopCount + 1]) := by
  simp only [AdjSettings.loopAux]
  rw [hfc]
  simp [h1, h2]

/-- An oracle whose first response requests an unregistered tool. -/
def oracleMysteryTool : Nat → Response :=
  fun _ => { parts := [Part.functionCall "mystery_tool" JValue.jnull] }

/-- Witness for C8: a concrete unregistered tool-call ends the loop at once
with the unknown-tool outcome and an empty loop trace. -/
theorem loop_unknown_tool_terminal_witness :
    AdjSettings.loopAux oracleMysteryTool "query" 5 0 0 none =
      (Outcome.unknownTool "mystery_tool", [], [1]) :=
  loop_unknown_tool_terminal oracleMysteryTool "query" 4 0 0 none
    "mystery_tool" JValue.jnull [] rfl (by decide) (by decide)

/-- **C10.** If the model requests `update_app_settings` while no current
settings are stored (`currentSettingsData` is still null, i.e.
`get_current_app_settings` has not been dispatched in this interaction), the
loop throws the dedicated error — ending the interaction through the
enclosing catch — and the round contributes no event, so the
`update_app_settings` handler is never invoked.  The second conjunct
specializes to a whole run whose first response already requests the update
tool. -/
theorem loop_update_without_settings_throws
    (oracle : Nat → Response) (userQuery : String)
    (fuel loopCount respIdx : Nat)
    (a : JValue) (rest : List (String × JValue))
    (hfc : (oracle respIdx).functionCalls = ("update_app_settings", a) :: rest) :
    AdjSettings.loopAux oracle userQuery (fuel + 1) loopCount respIdx none =
      (Outcome.thrownError missingSettingsMsg, [], [loopCount + 1]) ∧
    ((oracle 0).functionCalls = ("update_app_settings", a) :: rest →
      AdjSettings.runMain oracle userQuery =
        (Outcome.thrownError missingSettingsMsg, [Event.send], [1])) := by
  constructor
  · simp only [AdjSettings.loopAux]
    rw [hfc]
    simp
  · intro h0
    show (let r := AdjSettings.loopAux oracle userQuery (4 + 1) 0 0 none
          (r.1, Event.send :: r.2.1, r.2.2)) = _
    simp only [AdjSettings.loopAux]
    rw [h0]
    simp

/-- An oracle whose first response immediately requests the update tool. -/
def oracleUpdateFirst : Nat → Response :=
  fun _ => { parts := [Part.functionCall "update_app_settings" (JValue.jstr "args")] }

/-- Witness for C10: a run whose first response requests
`update_app_settings` ends with the thrown-error outcome and dispatches no
handler. -/
theorem loop_update_without_settings_throws_witness :
    AdjSettings.runMain oracleUpdateFirst "query" =
      (Outcome.thrownError missingSettingsMsg, [Event.send], [1]) :=
  (loop_update_without_settings_throws oracleUpdateFirst "query" 0 0 0
    (JValue.jstr "args") [] rfl).2 rfl

/-! ### C7: only the first tool-call of a round is processed -/

/-- Remove every function-call part after the first from a parts list,
keeping all text parts; `seen` records whether a function call was already
kept. -/
def keepFirstCall : List Part → Bool → List Part
  | [], _ => []
  | Part.text s :: rest, seen => Part.text s :: keepFirstCall rest seen
  | Part.functionCall n a :: rest, seen =>
    if seen then keepFirstCall rest true
    else Part.functionCall n a :: keepFirstCall rest true

/-- A response stripped of every tool-call after its first one. -/
def dropExtraCalls (r : Response) : Response :=
  { parts := keepFirstCall r.parts false }

lemma keepFirstCall_filterMap_text : ∀ (ps : List Part) (seen : Bool),
    (keepFirstCall ps seen).filterMap textSel = ps.filterMap textSel
  | [], _ => rfl
  | Part.text s :: rest, seen => by
    simp [keepFirstCall, textSel, keepFirstCall_filterMap_text rest seen]
  | Part.functionCall n a :: rest, seen => by
    cases seen <;>
      simp [keepFirstCall, textSel, keepFirstCall_filterMap_text rest true]

lemma keepFirstCall_filterMap_fc_true : ∀ ps : List Part,
    (keepFirstCall ps true).filterMap fcSel = []
  | [] => rfl
  | Part.text s :: rest => by
    simp [keepFirstCall, fcSel, keepFirstCall_filterMap_fc_true rest]
  | Part.functionCall n a :: rest => by
    simp [keepFirstCall, fcSel, keepFirstCall_filterMap_fc_true rest]

lemma keepFirstCall_filterMap_fc_false : ∀ ps : List Part,
    (keepFirstCall ps false).filterMap fcSel = (ps.filterMap fcSel).take 1
  | [] => rfl
  | Part.text s :: rest => by
    simp [keepFirstCall, fcSel, keepFirstCall_filterMap_fc_false rest]
  | Part.functionCall n a :: rest => by
    simp [keepFirstCall, fcSel, keepFirstCall_filterMap_fc_true rest]

lemma dropExtraCalls_functionCalls (r : Response) :
    (dropExtraCalls r).functionCalls = r.functionCalls.take 1 :=
  keepFirstCall_filterMap_fc_false r.parts

lemma dropExtraCalls_textOf (r : Response) :
    (dropExtraCalls r).textOf = r.textOf := by
  show String.join _ = String.join _
  rw [show (dropExtraCalls r).parts = keepFirstCall r.parts false from rfl,
    keepFirstCall_filterMap_text]

lemma loopAux_dropExtraCalls (oracle : Nat → Response) (userQuery : String) :
    ∀ fuel loopCount respIdx csd,
    AdjSettings.loopAux (fun i => dropExtraCalls (oracle i)) userQuery
        fuel loopCount respIdx csd =
      AdjSettings.loopAux oracle userQuery fuel loopCount respIdx csd := by
  intro fuel
  induction fuel with
  | zero =>
    intro loopCount respIdx csd
    simp only [AdjSettings.loopAux, dropExtraCalls_textOf]
  | succ fuel ih =>
    intro loopCount respIdx csd
    simp only [AdjSettings.loopAux, dropExtraCalls_functionCalls, dropExtraCalls_textOf]
    cases hfc : (oracle respIdx).functionCalls with
    | nil => simp
    | cons hd tl =>
      obtain ⟨n, a⟩ := hd
      simp only [List.take_succ_cons, List.take_zero]
      simp only [ih]

/-- **C7.** First conjunct: removing every tool-call after the first from
every model response changes nothing observable about the run — the outcome,
the full event trace (hence every handler invocation) and the counter values
are identical, so the loop silently discards all tool-calls after the first
of each round and invokes no handler for them.  Second conjunct: even when
further tool-calls are present in the round, the round's events are exactly
a dispatch of the first tool-call followed by the result round trip. -/
theorem loop_first_toolcall_only :
    (∀ (oracle : Nat → Response) (userQuery : String),
      AdjSettings.runMain (fun i => dropExtraCalls (oracle i)) userQuery =
        AdjSettings.runMain oracle userQuery) ∧
    (∀ (oracle : Nat → Response) (userQuery : String)
      (fuel loopCount respIdx : Nat) (csd : Option AppSettings)
      (a : JValue) (extraCall : String × JValue) (more : List (String × JValue)),
      (oracle respIdx).functionCalls =
          ("get_current_app_settings", a) :: extraCall :: more →
      (AdjSettings.loopAux oracle userQuery
          (fuel + 1) loopCount respIdx csd).2.1.take 2 =
        [Event.dispatch "get_current_app_settings" a none, Event.send]) := by
  constructor
  · intro oracle userQuery
    show (let r := AdjSettings.loopAux (fun i => dropExtraCalls (oracle i)) userQuery
            MAX_LOOPS 0 0 none
          (r.1, Event.send :: r.2.1, r.2.2)) = _
    rw [loopAux_dropExtraCalls]
    rfl
  · intro oracle userQuery fuel loopCount respIdx csd a extraCall more hfc
    simp only [AdjSettings.loopAux]
    rw [hfc]
    by_cases h5 : loopCount + 1 ≥ MAX_LOOPS <;> simp [h5]

/-- An oracle whose first response carries two tool-calls in one round. -/
def oracleTwoCalls : Nat → Response :=
  fun i =>
    if i = 0 then
      { parts := [Part.functionCall "get_current_app_settings" JValue.jnull,
                  Part.functionCall "update_app_settings" (JValue.jstr "extra")] }
    else { parts := [Part.text "Done."] }

/-- Witness for C7 at a response with two tool-calls: stripping the second
call leaves the run unchanged, and the first call is the one dispatched. -/
theorem loop_first_toolcall_only_witness :
    AdjSettings.runMain (fun i => dropExtraCalls (oracleTwoCalls i)) "query" =
      AdjSettings.runMain oracleTwoCalls "query" ∧
    (AdjSettings.loopAux oracleTwoCalls "query" 5 0 0 none).2.1.take 2 =
      [Event.dispatch "get_current_app_settings" JValue.jnull none, Event.send] :=
  ⟨loop_first_toolcall_only.1 oracleTwoCalls "query",
   loop_first_toolcall_only.2 oracleTwoCalls "query" 4 0 0 none JValue.jnull
     ("update_app_settings", JValue.jstr "extra") [] rfl⟩

/-! ### C4: dispatch count and handler arguments -/

lemma videoLoop_dispatch_verbatim (oracle : Nat → Response) :
    ∀ (fuel loopCount respIdx : Nat) (n : String) (a : JValue) (h : Option JValue),
    Event.dispatch n a h ∈ (VideoAssist.loopAux oracle fuel loopCount respIdx).2.1 →
    h = some a := by
  intro fuel
  induction fuel with
  | zero =>
    intro loopCount respIdx n a h hmem
    simp [VideoAssist.loopAux] at hmem
  | succ fuel ih =>
    intro loopCount respIdx n a h hmem
    simp only [VideoAssist.loopAux] at hmem
    cases hfc : (oracle respIdx).functionCalls with
    | nil =>
      rw [hfc] at hmem
      simp at hmem
    | cons hd tl =>
      obtain ⟨n', a'⟩ := hd
      rw [hfc] at hmem
      by_cases h1 : n' = "find_relevant_timestamps"
      · subst h1
        by_cases h5 : loopCount + 1 ≥ MAX_LOOPS
        · simp [h5] at hmem
          rw [hmem.2.2, hmem.2.1]
        · simp [h5] at hmem
          rcases hmem with ⟨hn, ha, hh⟩ | hmem
          · rw [hh, ha]
          · exact ih (loopCount + 1) (respIdx + 1) n a h hmem
      · by_cases h2 : n' = "answer_user_query"
        · subst h2
          by_cases h5 : loopCount + 1 ≥ MAX_LOOPS
          · simp [h1, h5] at hmem
            rw [hmem.2.2, hmem.2.1]
          · simp [h1, h5] at hmem
            rcases hmem with ⟨hn, ha, hh⟩ | hmem
            · rw [hh, ha]
            · exact ih (loopCount + 1) (respIdx + 1) n a h hmem
        · simp [h1, h2] at hmem

/-- **C4, amended.** In every round whose response names a registered tool,
the loop dispatches the bound handler exactly once: the round's events are
one dispatch followed by the result round trip.  The arguments handed to the
handler are taken verbatim from the request in the video-assistant loop (for
both of its tools, third conjunct); in the adjustable-settings loop, however,
`get_current_app_settings` is invoked without arguments (first conjunct) and
`update_app_settings` receives the stored current settings together with the
original user query in place of the model-supplied arguments (second
conjunct). -/
theorem dispatch_once_handler_args_amended :
    (∀ (oracle : Nat → Response) (userQuery : String)
      (fuel loopCount respIdx : Nat) (csd : Option AppSettings)
      (a : JValue) (rest : List (String × JValue)),
      (oracle respIdx).functionCalls = ("get_current_app_settings", a) :: rest →
      (AdjSettings.loopAux oracle userQuery
          (fuel + 1) loopCount respIdx csd).2.1.take 2 =
        [Event.dispatch "get_current_app_settings" a none, Event.send]) ∧
    (∀ (oracle : Nat → Response) (userQuery : String)
      (fuel loopCount respIdx : Nat) (storedSettings : AppSettings)
      (a : JValue) (rest : List (String × JValue)),
      (oracle respIdx).functionCalls = ("update_app_settings", a) :: rest →
      (AdjSettings.loopAux oracle userQuery
          (fuel + 1) loopCount respIdx (some storedSettings)).2.1.take 2 =
        [Event.dispatch "update_app_settings" a
          (some (updateToolArgs storedSettings userQuery)), Event.send]) ∧
    (∀ (oracle : Nat → Response) (fuel loopCount respIdx : Nat)
      (n : String) (a : JValue) (h : Option JValue),
      Event.dispatch n a h ∈ (VideoAssist.loopAux oracle fuel loopCount respIdx).2.1 →
      h = some a) := by
  refine ⟨?_, ?_, videoLoop_dispatch_verbatim⟩
  · intro oracle userQuery fuel loopCount respIdx csd a rest hfc
    simp only [AdjSettings.loopAux]
    rw [hfc]
    by_cases h5 : loopCount + 1 ≥ MAX_LOOPS <;> simp [h5]
  · intro oracle userQuery fuel loopCount respIdx storedSettings a rest hfc
    simp only [AdjSettings.loopAux]
    rw [hfc]
    by_cases h5 : loopCount + 1 ≥ MAX_LOOPS <;> simp [h5]

/-- An oracle that requests the settings read, then the settings update with
its own model-supplied arguments, then answers with text. -/
def oracleSubst : Nat → Response :=
  fun i =>
    if i = 0 then
      { parts := [Part.functionCall "get_current_app_settings" JValue.jnull] }
    else if i = 1 then
      { parts := [Part.functionCall "update_app_settings" (JValue.jstr "model-supplied")] }
    else { parts := [Part.text "Settings updated."] }

/-- Witness for the amended C4: the update round of a concrete run carries
the substituted handler arguments, and a video-assistant dispatch is
verbatim. -/
theorem dispatch_once_handler_args_amended_witness :
    (AdjSettings.loopAux oracleSubst "make text bigger" 4 1 1
        (some get_current_app_settings)).2.1.take 2 =
      [Event.dispatch "update_app_settings" (JValue.jstr "model-supplied")
        (some (updateToolArgs get_current_app_settings "make text bigger")), Event.send] :=
  dispatch_once_handler_args_amended.2.1 oracleSubst "make text bigger" 3 1 1
    get_current_app_settings (JValue.jstr "model-supplied") [] rfl

/-- **C4, counterexample.** In the adjustable-settings loop the arguments
are not taken verbatim from the request: a concrete run in which the model
requests `update_app_settings` with arguments `"model-supplied"` dispatches
the handler with the stored settings and the original user query instead. -/
theorem dispatch_verbatim_counterexample :
    dispatchTriples (AdjSettings.runMain oracleSubst "make text bigger").2.1 =
      [("get_current_app_settings", JValue.jnull, none),
       ("update_app_settings", JValue.jstr "model-supplied",
         some (updateToolArgs get_current_app_settings "make text bigger"))] ∧
    some (updateToolArgs get_current_app_settings "make text bigger") ≠
      some (JValue.jstr "model-supplied") := by
  constructor
  · rfl
  · intro h
    exact JValue.noConfusion (Option.some.inj h)

/-! ### C1: the iteration bound

Round-shape helper lemmas: one equation per way a loop iteration can go. -/

lemma loopAux_succ_nil (oracle : Nat → Response) (userQuery : String)
    (fuel loopCount respIdx : Nat) (csd : Option AppSettings)
    (hfc : (oracle respIdx).functionCalls = []) :
    AdjSettings.loopAux oracle userQuery (fuel + 1) loopCount respIdx csd =
      (Outcome.finalResponse (oracle respIdx).textOf, [], [loopCount + 1]) := by
  simp only [AdjSettings.loopAux]
  rw [hfc]

lemma loopAux_succ_get (oracle : Nat → Response) (userQuery : String)
    (fuel loopCount respIdx : Nat) (csd : Option AppSettings)
    (a : JValue) (tl : List (String × JValue))
    (hfc : (oracle respIdx).functionCalls = ("get_current_app_settings", a) :: tl) :
    AdjSettings.loopAux oracle userQuery (fuel + 1) loopCount respIdx csd =
      if loopCount + 1 ≥ MAX_LOOPS then
        (Outcome.maxLoops (oracle (respIdx + 1)).textOf,
          [Event.dispatch "get_current_app_settings" a none, Event.send], [loopCount + 1])
      else
        ((AdjSettings.loopAux oracle userQuery fuel (loopCount + 1) (respIdx + 1)
            (some get_current_app_settings)).1,
          Event.dispatch "get_current_app_settings" a none :: Event.send ::
            (AdjSettings.loopAux oracle userQuery fuel (loopCount + 1) (respIdx + 1)
              (some get_current_app_settings)).2.1,
          (loopCount + 1) ::
            (AdjSettings.loopAux oracle userQuery fuel (loopCount + 1) (respIdx + 1)
              (some get_current_app_settings)).2.2) := by
  simp only [AdjSettings.loopAux]
  rw [hfc]
  by_cases h5 : loopCount + 1 ≥ MAX_LOOPS <;> simp [h5]

lemma loopAux_succ_update (oracle : Nat → Response) (userQuery : String)
    (fuel loopCount respIdx : Nat) (storedSettings : AppSettings)
    (a : JValue) (tl : List (String × JValue))
    (hfc : (oracle respIdx).functionCalls = ("update_app_settings", a) :: tl) :
    AdjSettings.loopAux oracle userQuery (fuel + 1) loopCount respIdx
        (some storedSettings) =
      if loopCount + 1 ≥ MAX_LOOPS then
        (Outcome.maxLoops (oracle (respIdx + 1)).textOf,
          [Event.dispatch "update_app_settings" a
            (some (updateToolArgs storedSettings userQuery)), Event.send], [loopCount + 1])
      else
        ((AdjSettings.loopAux oracle userQuery fuel (loopCount + 1) (respIdx + 1)
            (some storedSettings)).1,
          Event.dispatch "update_app_settings" a
              (some (updateToolArgs storedSettings userQuery)) :: Event.send ::
            (AdjSettings.loopAux oracle userQuery fuel (loopCount + 1) (respIdx + 1)
              (some storedSettings)).2.1,
          (loopCount + 1) ::
            (AdjSettings.loopAux oracle userQuery fuel (loopCount + 1) (respIdx + 1)
              (some storedSettings)).2.2) := by
  simp only [AdjSettings.loopAux]
  rw [hfc]
  by_cases h5 : loopCount + 1 ≥ MAX_LOOPS <;> simp [h5]

lemma loopAux_succ_update_none (oracle : Nat → Response) (userQuery : String)
    (fuel loopCount respIdx : Nat)
    (a : JValue) (tl : List (String × JValue))
    (hfc : (oracle respIdx).functionCalls = ("update_app_settings", a) :: tl) :
    AdjSettings.loopAux oracle userQuery (fuel + 1) loopCount respIdx none =
      (Outcome.thrownError missingSettingsMsg, [], [loopCount + 1]) := by
  simp only [AdjSettings.loopAux]
  rw [hfc]
  simp

lemma loopAux_succ_unknown (oracle : Nat → Response) (userQuery : String)
    (fuel loopCount respIdx : Nat) (csd : Option AppSettings)
    (n : String) (a : JValue) (tl : List (String × JValue))
    (hfc : (oracle respIdx).functionCalls = (n, a) :: tl)
    (h1 : n ≠ "get_current_app_settings") (h2 : n ≠ "update_app_settings") :
    AdjSettings.loopAux oracle userQuery (fuel + 1) loopCount respIdx csd =
      (Outcome.unknownTool n, [], [loopCount + 1]) := by
  simp only [AdjSettings.loopAux]
  rw [hfc]
  simp [h1, h2]

lemma countDispatches_cons_dispatch (n : String) (a : JValue) (h : Option JValue)
    (tr : List Event) :
    countDispatches (Event.dispatch n a h :: tr) = countDispatches tr + 1 := by
  simp [countDispatches, isDispatchEv, List.countP_cons]

lemma countDispatches_cons_send (tr : List Event) :
    countDispatches (Event.send :: tr) = countDispatches tr := by
  simp [countDispatches, isDispatchEv, List.countP_cons]

lemma countSends_cons_dispatch (n : String) (a : JValue) (h : Option JValue)
    (tr : List Event) :
    countSends (Event.dispatch n a h :: tr) = countSends tr := by
  simp [countSends, isSendEv, List.countP_cons]

lemma countSends_cons_send (tr : List Event) :
    countSends (Event.send :: tr) = countSends tr + 1 := by
  simp [countSends, isSendEv, List.countP_cons]

lemma dropUntilDispatches_cons_dispatch (k : Nat) (n : String) (a : JValue)
    (h : Option JValue) (tr : List Event) :
    dropUntilDispatches (k + 1) (Event.dispatch n a h :: tr) =
      dropUntilDispatches k tr := by
  simp [dropUntilDispatches, isDispatchEv]

lemma dropUntilDispatches_cons_send (k : Nat) (tr : List Event) :
    dropUntilDispatches (k + 1) (Event.send :: tr) =
      dropUntilDispatches (k + 1) tr := by
  simp [dropUntilDispatches, isDispatchEv]

/-- The `loopCount` values observed at the top of the executed iterations
form a contiguous run starting just above the entry value, of length at most
the remaining fuel. -/
lemma loopAux_counterValues (oracle : Nat → Response) (userQuery : String) :
    ∀ fuel loopCount respIdx csd,
    ∃ k, k ≤ fuel ∧
      (AdjSettings.loopAux oracle userQuery fuel loopCount respIdx csd).2.2 =
        List.range' (loopCount + 1) k := by
  intro fuel
  induction fuel with
  | zero =>
    intro loopCount respIdx csd
    exact ⟨0, Nat.le_refl 0, rfl⟩
  | succ fuel ih =>
    intro loopCount respIdx csd
    rcases hfc : (oracle respIdx).functionCalls with _ | ⟨⟨n, a⟩, tl⟩
    · rw [loopAux_succ_nil oracle userQuery fuel loopCount respIdx csd hfc]
      exact ⟨1, Nat.succ_le_succ (Nat.zero_le fuel), by simp⟩
    · by_cases h1 : n = "get_current_app_settings"
      · subst h1
        rw [loopAux_succ_get oracle userQuery fuel loopCount respIdx csd a tl hfc]
        by_cases h5 : loopCount + 1 ≥ MAX_LOOPS
        · rw [if_pos h5]
          exact ⟨1, Nat.succ_le_succ (Nat.zero_le fuel), by simp⟩
        · rw [if_neg h5]
          obtain ⟨k, hk, hcvs⟩ :=
            ih (loopCount + 1) (respIdx + 1) (some get_current_app_settings)
          exact ⟨k + 1, Nat.succ_le_succ hk, by rw [List.range'_succ, ← hcvs]⟩
      · by_cases h2 : n = "update_app_settings"
        · subst h2
          cases csd with
          | none =>
            rw [loopAux_succ_update_none oracle userQuery fuel loopCount respIdx a tl hfc]
            exact ⟨1, Nat.succ_le_succ (Nat.zero_le fuel), by simp⟩
          | some storedSettings =>
            rw [loopAux_succ_update oracle userQuery fuel loopCount respIdx
              storedSettings a tl hfc]
            by_cases h5 : loopCount + 1 ≥ MAX_LOOPS
            · rw [if_pos h5]
              exact ⟨1, Nat.succ_le_succ (Nat.zero_le fuel), by simp⟩
            · rw [if_neg h5]
              obtain ⟨k, hk, hcvs⟩ :=
                ih (loopCount + 1) (respIdx + 1) (some storedSettings)
              exact ⟨k + 1, Nat.succ_le_succ hk, by rw [List.range'_succ, ← hcvs]⟩
        · rw [loopAux_succ_unknown oracle userQuery fuel loopCount respIdx csd
            n a tl hfc h1 h2]
          exact ⟨1, Nat.succ_le_succ (Nat.zero_le fuel), by simp⟩

/-- When a run of the loop ends through the iteration bound, it performed
exactly `fuel` more dispatches and `fuel` more round trips, the surfaced text
is that of the response received after the last dispatch, and exactly one
round trip — the delivery of the last tool result — follows the final
dispatch. -/
lemma loopAux_maxLoops_shape (oracle : Nat → Response) (userQuery : String) :
    ∀ fuel loopCount respIdx csd t,
    loopCount + fuel = MAX_LOOPS →
    (AdjSettings.loopAux oracle userQuery fuel loopCount respIdx csd).1 =
      Outcome.maxLoops t →
    countDispatches
        (AdjSettings.loopAux oracle userQuery fuel loopCount respIdx csd).2.1 = fuel ∧
    countSends
        (AdjSettings.loopAux oracle userQuery fuel loopCount respIdx csd).2.1 = fuel ∧
    t = (oracle (respIdx + fuel)).textOf ∧
    (0 < fuel →
      sendsAfterDispatches fuel
        (AdjSettings.loopAux oracle userQuery fuel loopCount respIdx csd).2.1 = 1) := by
  intro fuel
  induction fuel with
  | zero =>
    intro loopCount respIdx csd t hinv hout
    refine ⟨rfl, rfl, ?_, fun h0 => absurd h0 (Nat.lt_irrefl 0)⟩
    exact (Outcome.maxLoops.inj hout).symm
  | succ fuel ih =>
    intro loopCount respIdx csd t hinv hout
    rcases hfc : (oracle respIdx).functionCalls with _ | ⟨⟨n, a⟩, tl⟩
    · rw [loopAux_succ_nil oracle userQuery fuel loopCount respIdx csd hfc] at hout
      exact Outcome.noConfusion hout
    · by_cases h1 : n = "get_current_app_settings"
      · subst h1
        rw [loopAux_succ_get oracle userQuery fuel loopCount respIdx csd a tl hfc] at hout ⊢
        by_cases h5 : loopCount + 1 ≥ MAX_LOOPS
        · rw [if_pos h5] at hout ⊢
          have hfuel : fuel = 0 := by omega
          subst hfuel
          refine ⟨rfl, rfl, (Outcome.maxLoops.inj hout).symm, fun _ => rfl⟩
        · rw [if_neg h5] at hout ⊢
          have hfuelpos : 0 < fuel := by omega
          obtain ⟨hd1, hs1, ht1, ha1⟩ :=
            ih (loopCount + 1) (respIdx + 1) (some get_current_app_settings) t
              (by omega) hout
          refine ⟨?_, ?_, ?_, fun _ => ?_⟩
          · rw [countDispatches_cons_dispatch, countDispatches_cons_send, hd1]
          · rw [countSends_cons_dispatch, countSends_cons_send, hs1]
          · rw [ht1]
            congr 2
            omega
          · obtain ⟨f, rfl⟩ : ∃ f, fuel = f + 1 := ⟨fuel - 1, by omega⟩
            show sendsAfterDispatches (f + 2) (_ :: Event.send :: _) = 1
            unfold sendsAfterDispatches
            rw [dropUntilDispatches_cons_dispatch, dropUntilDispatches_cons_send]
            exact ha1 hfuelpos
      · by_cases h2 : n = "update_app_settings"
        · subst h2
          cases csd with
          | none =>
            rw [loopAux_succ_update_none oracle userQuery fuel loopCount respIdx
              a tl hfc] at hout
            exact Outcome.noConfusion hout
          | some storedSettings =>
            rw [loopAux_succ_update oracle userQuery fuel loopCount respIdx
              storedSettings a tl hfc] at hout ⊢
            by_cases h5 : loopCount + 1 ≥ MAX_LOOPS
            · rw [if_pos h5] at hout ⊢
              have hfuel : fuel = 0 := by omega
              subst hfuel
              refine ⟨rfl, rfl, (Outcome.maxLoops.inj hout).symm, fun _ => rfl⟩
            · rw [if_neg h5] at hout ⊢
              have hfuelpos : 0 < fuel := by omega
              obtain ⟨hd1, hs1, ht1, ha1⟩ :=
                ih (loopCount + 1) (respIdx + 1) (some storedSettings) t
                  (by omega) hout
              refine ⟨?_, ?_, ?_, fun _ => ?_⟩
              · rw [countDispatches_cons_dispatch, countDispatches_cons_send, hd1]
              · rw [countSends_cons_dispatch, countSends_cons_send, hs1]
              · rw [ht1]
                congr 2
                omega
              · obtain ⟨f, rfl⟩ : ∃ f, fuel = f + 1 := ⟨fuel - 1, by omega⟩
                show sendsAfterDispatches (f + 2) (_ :: Event.send :: _) = 1
                unfold sendsAfterDispatches
                rw [dropUntilDispatches_cons_dispatch, dropUntilDispatches_cons_send]
                exact ha1 hfuelpos
        · rw [loopAux_succ_unknown oracle userQuery fuel loopCount respIdx csd
            n a tl hfc h1 h2] at hout
          exact Outcome.noConfusion hout

/-- **C1, amended.** For every run of the orchestrator loop the iteration
counter is monotonically non-decreasing and never exceeds the configured
maximum of 5 (first conjunct, over all oracles).  Whenever the bound is
reached the loop terminates in the aborted state: it has performed exactly 5
dispatches, surfaces the text of the response received after the fifth
dispatch, and performs exactly one model round trip after the fifth dispatch
— the `sendMessage` delivering the fifth tool result, whose response supplies
the surfaced text — for 6 round trips in total including the initial user
message; no sixth dispatch round ever occurs and every exit is a returned
outcome rather than an unhandled failure (second conjunct). -/
theorem loop_iteration_bound_amended :
    (∀ (oracle : Nat → Response) (userQuery : String),
      List.Chain' (· ≤ ·) (AdjSettings.runMain oracle userQuery).2.2 ∧
      ∀ c ∈ (AdjSettings.runMain oracle userQuery).2.2, c ≤ MAX_LOOPS) ∧
    (∀ (oracle : Nat → Response) (userQuery : String) (t : String),
      (AdjSettings.runMain oracle userQuery).1 = Outcome.maxLoops t →
      t = (oracle 5).textOf ∧
      countDispatches (AdjSettings.runMain oracle userQuery).2.1 = 5 ∧
      countSends (AdjSettings.runMain oracle userQuery).2.1 = 6 ∧
      sendsAfterDispatches 5 (AdjSettings.runMain oracle userQuery).2.1 = 1) := by
  constructor
  · intro oracle userQuery
    obtain ⟨k, hk, hcvs⟩ := loopAux_counterValues oracle userQuery MAX_LOOPS 0 0 none
    have h22 : (AdjSettings.runMain oracle userQuery).2.2 = List.range' 1 k := hcvs
    constructor
    · rw [h22]
      exact (List.pairwise_le_range' 1 k).chain'
    · intro c hc
      rw [h22] at hc
      have hmem := List.mem_range'_1.mp hc
      have h5 : MAX_LOOPS = 5 := rfl
      omega
  · intro oracle userQuery t hout
    have hout' : (AdjSettings.loopAux oracle userQuery MAX_LOOPS 0 0 none).1 =
        Outcome.maxLoops t := hout
    obtain ⟨hd1, hs1, ht1, ha1⟩ :=
      loopAux_maxLoops_shape oracle userQuery MAX_LOOPS 0 0 none t rfl hout'
    refine ⟨ht1, ?_, ?_, ?_⟩
    · show countDispatches (Event.send ::
        (AdjSettings.loopAux oracle userQuery MAX_LOOPS 0 0 none).2.1) = 5
      rw [countDispatches_cons_send]
      exact hd1
    · show countSends (Event.send ::
        (AdjSettings.loopAux oracle userQuery MAX_LOOPS 0 0 none).2.1) = 6
      rw [countSends_cons_send, hs1]
      rfl
    · show sendsAfterDispatches 5 (Event.send ::
        (AdjSettings.loopAux oracle userQuery MAX_LOOPS 0 0 none).2.1) = 1
      unfold sendsAfterDispatches
      rw [dropUntilDispatches_cons_send]
      exact ha1 (by decide)

/-- An oracle that requests a registered tool on every round, driving the
loop into its iteration bound (the spec's six-consecutive-tool-call-rounds
scenario). -/
def oracleAllCalls : Nat → Response :=
  fun _ => { parts := [Part.functionCall "get_current_app_settings" JValue.jnull] }

/-- **C1, counterexample.** In the concrete run where the model requests a
tool on every round, the bound is reached (the run ends in the aborted
state after 5 dispatches) and yet one model round trip does occur after the
fifth dispatch — the delivery of the fifth tool result, from whose response
the surfaced (here empty) text is taken — refuting the claim that no further
model round trip is performed after the fifth dispatch. -/
theorem loop_sixth_roundtrip_counterexample :
    (AdjSettings.runMain oracleAllCalls "query").1 = Outcome.maxLoops "" ∧
    countDispatches (AdjSettings.runMain oracleAllCalls "query").2.1 = 5 ∧
    sendsAfterDispatches 5 (AdjSettings.runMain oracleAllCalls "query").2.1 = 1 :=
  ⟨rfl, rfl, rfl⟩

/-- Witness for the amended C1: at the all-tool-calls oracle the bound is
reached and the run makes 6 round trips in total. -/
theorem loop_iteration_bound_amended_witness :
    countSends (AdjSettings.runMain oracleAllCalls "query").2.1 = 6 :=
  (loop_iteration_bound_amended.2 oracleAllCalls "query" "" rfl).2.2.1

/-! ### C9: the conversation session

The session object used by the examples is the `ChatSession` of the
`@google/generative-ai` dependency (`model.startChat(...)` plus
`sendMessage`), whose implementation is not part of this repository, so the
session is modelled from the spec. -/

/-- Modelled from the spec (section 3): the role tag of a conversation turn.
The implementing `ChatSession` class is not in this repository. -/
inductive Role where
  | user
  | assistant
  | tool

/-- Modelled from the spec (section 3): one part of a conversation turn —
text, a structured value, or a binary-attachment reference. -/
inductive TurnPart where
  | text (s : String)
  | structuredValue (v : JValue)
  | binaryAttachmentRef (ref : String)

/-- Modelled from the spec (section 3): a ConversationTurn, immutable once
created. -/
structure ConversationTurn where
  role : Role
  parts : List TurnPart

/-- Modelled from the spec (sections 3 and 4.1): a ConversationSession is an
ordered, append-only turn log whose only operations are `append` and
`view`. -/
structure ConversationSession where
  turns : List ConversationTurn

/-- The session created at interaction start (`startChat({ history: [] })`). -/
def ConversationSession.empty : ConversationSession :=
  { turns := [] }

/-- Modelled from the spec: `append(turn)` adds a turn to the end. -/
def ConversationSession.append (s : ConversationSession) (t : ConversationTurn) :
    ConversationSession :=
  { turns := s.turns ++ [t] }

/-- Modelled from the spec: `view()` returns the full ordered sequence. -/
def ConversationSession.view (s : ConversationSession) : List ConversationTurn :=
  s.turns

/-- Appending a whole sequence of turns, one at a time. -/
def ConversationSession.appendAll (s : ConversationSession)
    (ts : List ConversationTurn) : ConversationSession :=
  ts.foldl ConversationSession.append s

lemma appendAll_view (ts : List ConversationTurn) :
    ∀ s : ConversationSession, (s.appendAll ts).view = s.view ++ ts := by
  induction ts with
  | nil =>
    intro s
    simp [ConversationSession.appendAll, ConversationSession.view]
  | cons t ts ih =>
    intro s
    show ((s.append t).appendAll ts).view = _
    rw [ih]
    simp [ConversationSession.append, ConversationSession.view]

/-- **C9.** Appending turns T1..Tn to a session and reading the view yields
exactly [T1,...,Tn] in that order (first conjunct, from the empty session);
more generally every append leaves the previously present turns in place and
in order, adding the new turns at the end — no operation of the session
(there are only `append` and `view`) removes, reorders or mutates an
existing turn (second and third conjuncts). -/
theorem session_append_order_preserved :
    (∀ ts : List ConversationTurn,
      (ConversationSession.empty.appendAll ts).view = ts) ∧
    (∀ (s : ConversationSession) (t : ConversationTurn),
      (s.append t).view = s.view ++ [t]) ∧
    (∀ (s : ConversationSession) (ts : List ConversationTurn),
      (s.appendAll ts).view = s.view ++ ts) := by
  refine ⟨fun ts => ?_, fun s t => rfl, fun s ts => appendAll_view ts s⟩
  rw [appendAll_view]
  rfl

end NaiExamples
